import Mathlib

/-!
# Verification of the Apollo VS Code theme validation scripts

Shallow embedding of the color / contrast computations and validation
helpers of the `apollo-vscode-theme` repository:

* `calculateLuminance`, `calculateContrastRatio`, `getContrastLevel`
  (duplicated in `src/test-colors.js`, `test-semantic-validation.js`
  and the final-test script);
* `isValidHexColor`, the Apollo palette constants and the theme-color
  helpers of the palette module (`colors.ts`);
* `analyzeContrast` / `validateLightThemeStructure` error handling;
* `testPathSeparators` of the cross-platform compatibility suite.

JavaScript numbers are modelled by real numbers (`ℝ`); `parseInt`
returning `NaN` and values being `undefined` are modelled by `Option`;
a thrown exception is modelled by `Except`.
-/

namespace Apollo

/-! ## Hex digits and `parseInt(-, 16)` on two-character slices -/

/-- A hexadecimal digit character: `0`-`9` (codes 48-57), `a`-`f`
(codes 97-102) or `A`-`F` (codes 65-70).  This is the character class
`[0-9A-Fa-f]` of the validation regexes. -/
def isHexDigit (c : Char) : Bool :=
  (48 ≤ c.toNat && c.toNat ≤ 57) ||
  (97 ≤ c.toNat && c.toNat ≤ 102) ||
  (65 ≤ c.toNat && c.toNat ≤ 70)

/-- Numeric value of one hexadecimal digit, `none` for any other
character (`parseInt` yields `NaN` when the first character is not a
digit). -/
def hexDigitVal (c : Char) : Option Nat :=
  if 48 ≤ c.toNat && c.toNat ≤ 57 then some (c.toNat - 48)
  else if 97 ≤ c.toNat && c.toNat ≤ 102 then some (c.toNat - 97 + 10)
  else if 65 ≤ c.toNat && c.toNat ≤ 70 then some (c.toNat - 65 + 10)
  else none

/-- Model of `parseInt(hexColor.slice(i, i+2), 16)`: JavaScript `slice`
clamps to the string length, and `parseInt` parses the longest prefix of
hexadecimal digits, returning `NaN` (here `none`) when there is none. -/
def parseHexPair (s : String) (i : Nat) : Option Nat :=
  match s.data.get? i, s.data.get? (i + 1) with
  | some c1, some c2 =>
    match hexDigitVal c1, hexDigitVal c2 with
    | some d1, some d2 => some (16 * d1 + d2)
    | some d1, none => some d1
    | none, _ => none
  | some c1, none => hexDigitVal c1
  | none, _ => none

/-! ## `isValidHexColor` (regex `/^#[0-9A-Fa-f]{6}$/`) -/

/-- Function `isValidHexColor` of `src/colors.ts` and `test-light-validation.js`:
tests the string against `/^#[0-9A-Fa-f]{6}$/`. -/
def isValidHexColor (color : String) : Bool :=
  match color.data with
  | '#' :: rest => rest.length == 6 && rest.all isHexDigit
  | _ => false

/-! ## `calculateLuminance` -/

/-- Gamma expansion of one channel already scaled to `[0,1]`:
`c <= 0.03928 ? c / 12.92 : Math.pow((c + 0.055) / 1.055, 2.4)`. -/
noncomputable def linearize (c : ℝ) : ℝ :=
  if c ≤ 0.03928 then c / 12.92 else ((c + 0.055) / 1.055) ^ (2.4 : ℝ)

/-- Weighted sum `0.2126 * rLinear + 0.7152 * gLinear + 0.0722 * bLinear` applied to
the three 8-bit channel values divided by 255. -/
noncomputable def luminance8 (r g b : Nat) : ℝ :=
  0.2126 * linearize ((r : ℝ) / 255) +
  0.7152 * linearize ((g : ℝ) / 255) +
  0.0722 * linearize ((b : ℝ) / 255)

/-- Function `calculateLuminance(hexColor)` as written identically in
`src/test-colors.js`, `test-semantic-validation.js` and the final-test
script: parses the three channel pairs at indices 1, 3 and 5 and applies
gamma correction and the luminance weighting.  (The copy in
`test-semantic-validation.js` first takes `hexColor.slice(0, 7)`, which
is the identity on the 7-character colors considered here.)  A `NaN`
result, arising from a failed `parseInt`, is modelled by `none`. -/
noncomputable def calculateLuminance (hexColor : String) : Option ℝ :=
  match parseHexPair hexColor 1, parseHexPair hexColor 3, parseHexPair hexColor 5 with
  | some r, some g, some b => some (luminance8 r g b)
  | _, _, _ => none

/-- Function `calculateContrastRatio(color1, color2)` of
`test-semantic-validation.js`:
`(Math.max(l1,l2) + 0.05) / (Math.min(l1,l2) + 0.05)`; the same
expression appears inline in `analyzeContrast` and `runFinalTest`. -/
noncomputable def calculateContrastRatio (color1 color2 : String) : Option ℝ :=
  match calculateLuminance color1, calculateLuminance color2 with
  | some l1, some l2 => some ((max l1 l2 + 0.05) / (min l1 l2 + 0.05))
  | _, _ => none

/-- Function `getContrastLevel(ratio)` of `src/test-colors.js` and the final-test
script. -/
noncomputable def getContrastLevel (ratio : ℝ) : String :=
  if ratio ≥ 7 then "AAA"
  else if ratio ≥ 4.5 then "AA"
  else if ratio ≥ 3 then "AA Large"
  else "Fail"

/-! ## Spec-side definitions (W3C relative luminance, from the spec text) -/

/-- Spec side: linear light of an 8-bit sRGB channel `c`:
`c' = c/255`; if `c' <= 0.03928` then `c'/12.92`, else
`((c' + 0.055)/1.055)^2.4`. -/
noncomputable def spec_linearChannel (c8 : Nat) : ℝ :=
  let c : ℝ := (c8 : ℝ) / 255
  if c ≤ 0.03928 then c / 12.92 else ((c + 0.055) / 1.055) ^ (2.4 : ℝ)

/-- Spec side: relative luminance
`L = 0.2126*R_linear + 0.7152*G_linear + 0.0722*B_linear`. -/
noncomputable def spec_relativeLuminance (r g b : Nat) : ℝ :=
  0.2126 * spec_linearChannel r + 0.7152 * spec_linearChannel g +
    0.0722 * spec_linearChannel b

/-- Spec side: the 8-bit channel denoted by the two hex digits at
positions `i`, `i+1` of the color string (`RR`, `GG` or `BB`). -/
def spec_channel (s : String) (i : Nat) : Nat :=
  16 * ((hexDigitVal (s.data.getD i '0')).getD 0) +
    ((hexDigitVal (s.data.getD (i + 1) '0')).getD 0)

/-! ## The Apollo palette module (`src/colors.ts`)

A JavaScript object literal is modelled as an association list in
insertion order; the object-spread merge `{...o1, ...o2}` overwrites the
value of a key already present and appends new keys at the end, which is
what `objInsert`/`objMerge` implement. -/

/-- Insert one key/value pair into an object, JavaScript-style: an
existing key keeps its position and gets the new value, a new key is
appended. -/
def objInsert (o : List (String × String)) (kv : String × String) :
    List (String × String) :=
  if o.any (fun p => p.1 == kv.1) then
    o.map (fun p => if p.1 == kv.1 then (p.1, kv.2) else p)
  else o ++ [kv]

/-- Spread merge `\x7b...o1, ...o2\x7d`. -/
def objMerge (o1 o2 : List (String × String)) : List (String × String) :=
  o2.foldl objInsert o1

/-- Group `BLUES_TEALS`. -/
def BLUES_TEALS : List (String × String) :=
  [("DARKEST_BLUE", "#172038"), ("DARK_BLUE", "#253a5e"),
   ("MEDIUM_BLUE", "#3c5e8b"), ("LIGHT_BLUE", "#4f8fba"),
   ("BRIGHT_TEAL", "#73bed3"), ("LIGHTEST_TEAL", "#a4dddb")]

/-- Group `GREENS`. -/
def GREENS : List (String × String) :=
  [("DARKEST_GREEN", "#19332d"), ("DARK_GREEN", "#25562e"),
   ("MEDIUM_GREEN", "#468232"), ("BRIGHT_GREEN", "#75a743"),
   ("LIGHT_GREEN", "#a8ca58"), ("LIGHTEST_GREEN", "#d0da91")]

/-- Group `BROWNS_ORANGES`. -/
def BROWNS_ORANGES : List (String × String) :=
  [("DARKEST_BROWN", "#4d2b32"), ("DARK_BROWN", "#7a4841"),
   ("MEDIUM_BROWN", "#ad7757"), ("LIGHT_BROWN", "#c09473"),
   ("LIGHTEST_BROWN", "#d7b594"), ("CREAM", "#e7d5b3")]

/-- Group `WARM_TONES`. -/
def WARM_TONES : List (String × String) :=
  [("DARKEST_WARM", "#341c27"), ("DARK_WARM", "#602c2c"),
   ("MEDIUM_WARM", "#884b2b"), ("BRIGHT_WARM", "#be772b"),
   ("LIGHT_WARM", "#de9e41"), ("LIGHTEST_WARM", "#e8c170")]

/-- Group `PURPLES_MAGENTAS`. -/
def PURPLES_MAGENTAS : List (String × String) :=
  [("DARKEST_PURPLE", "#241527"), ("DARK_PURPLE", "#411d31"),
   ("MEDIUM_PURPLE", "#752438"), ("BRIGHT_PURPLE", "#a53030"),
   ("LIGHT_PURPLE", "#cf573c"), ("LIGHTEST_PURPLE", "#da863e")]

/-- Group `DEEP_PURPLES`. -/
def DEEP_PURPLES : List (String × String) :=
  [("DARKEST_DEEP", "#1e1d39"), ("DARK_DEEP", "#402751"),
   ("MEDIUM_DEEP", "#7a367b"), ("BRIGHT_DEEP", "#a23e8c"),
   ("LIGHT_DEEP", "#c65197"), ("LIGHTEST_DEEP", "#df84a5")]

/-- Group `GRAYSCALE`. -/
def GRAYSCALE : List (String × String) :=
  [("BLACK", "#090a14"), ("DARKEST_GRAY", "#10141f"),
   ("DARKER_GRAY", "#151d28"), ("DARK_GRAY", "#202e37"),
   ("MEDIUM_DARK_GRAY", "#394a50"), ("MEDIUM_GRAY", "#577277"),
   ("LIGHT_MEDIUM_GRAY", "#819796"), ("LIGHT_GRAY", "#a8b5b2"),
   ("LIGHTER_GRAY", "#c7cfcc"), ("WHITE", "#ebede9")]

/-- Constant `APOLLO_PALETTE`: spread-merge of the seven groups (documented in
the module as "all 48 colors"). -/
def APOLLO_PALETTE : List (String × String) :=
  objMerge (objMerge (objMerge (objMerge (objMerge (objMerge
    BLUES_TEALS GREENS) BROWNS_ORANGES) WARM_TONES) PURPLES_MAGENTAS)
    DEEP_PURPLES) GRAYSCALE

/-- Function `getAllApolloColors()`: `Object.values(APOLLO_PALETTE)`. -/
def getAllApolloColors : List String :=
  APOLLO_PALETTE.map Prod.snd

/-- Function `isApolloColor(color)`: `getAllApolloColors().includes(color)`. -/
def isApolloColor (color : String) : Bool :=
  getAllApolloColors.contains color

/-- Value of a key in a group object (`BLUES_TEALS.LIGHT_BLUE`, ...);
total because every use in the source names an existing key. -/
def groupVal (o : List (String × String)) (k : String) : String :=
  ((o.find? (fun p => p.1 == k)).map Prod.snd).getD ""

/-- The `ThemeColors` interface of `src/colors.ts`. -/
structure ThemeColors where
  backgroundPrimary : String
  backgroundSecondary : String
  backgroundTertiary : String
  textPrimary : String
  textSecondary : String
  textMuted : String
  accentsPrimary : String
  accentsSecondary : String
  accentsWarning : String
  accentsError : String
  accentsInfo : String
  accentsSuccess : String

/-- Constant `DARK_THEME_COLORS`. -/
def DARK_THEME_COLORS : ThemeColors where
  backgroundPrimary := groupVal GRAYSCALE "BLACK"
  backgroundSecondary := groupVal GRAYSCALE "DARKEST_GRAY"
  backgroundTertiary := groupVal GRAYSCALE "DARKER_GRAY"
  textPrimary := groupVal GRAYSCALE "WHITE"
  textSecondary := groupVal GRAYSCALE "LIGHTER_GRAY"
  textMuted := groupVal GRAYSCALE "LIGHT_MEDIUM_GRAY"
  accentsPrimary := groupVal BLUES_TEALS "BRIGHT_TEAL"
  accentsSecondary := groupVal GREENS "LIGHT_GREEN"
  accentsWarning := groupVal WARM_TONES "LIGHT_WARM"
  accentsError := groupVal PURPLES_MAGENTAS "LIGHT_PURPLE"
  accentsInfo := groupVal BLUES_TEALS "LIGHT_BLUE"
  accentsSuccess := groupVal GREENS "BRIGHT_GREEN"

/-- Constant `LIGHT_THEME_COLORS`. -/
def LIGHT_THEME_COLORS : ThemeColors where
  backgroundPrimary := groupVal GRAYSCALE "WHITE"
  backgroundSecondary := groupVal GRAYSCALE "LIGHTER_GRAY"
  backgroundTertiary := groupVal GRAYSCALE "LIGHT_GRAY"
  textPrimary := groupVal GRAYSCALE "BLACK"
  textSecondary := groupVal GRAYSCALE "DARKER_GRAY"
  textMuted := groupVal GRAYSCALE "MEDIUM_DARK_GRAY"
  accentsPrimary := groupVal BLUES_TEALS "BRIGHT_TEAL"
  accentsSecondary := groupVal GREENS "LIGHT_GREEN"
  accentsWarning := groupVal WARM_TONES "LIGHT_WARM"
  accentsError := groupVal PURPLES_MAGENTAS "LIGHT_PURPLE"
  accentsInfo := groupVal BLUES_TEALS "LIGHT_BLUE"
  accentsSuccess := groupVal GREENS "BRIGHT_GREEN"

/-- Function `getThemeColors(isDark)`. -/
def getThemeColors (isDark : Bool) : ThemeColors :=
  if isDark then DARK_THEME_COLORS else LIGHT_THEME_COLORS

/-- All twelve color strings carried by a `ThemeColors` value, used to
state palette membership for everything `getThemeColors` produces. -/
def ThemeColors.allColors (t : ThemeColors) : List String :=
  [t.backgroundPrimary, t.backgroundSecondary, t.backgroundTertiary,
   t.textPrimary, t.textSecondary, t.textMuted,
   t.accentsPrimary, t.accentsSecondary, t.accentsWarning,
   t.accentsError, t.accentsInfo, t.accentsSuccess]

/-- Function `getSyntaxColors(isDark)`, as the association list of its eleven
fields in source order. -/
def getSyntaxColors (isDark : Bool) : List (String × String) :=
  [("keyword", if isDark then groupVal BLUES_TEALS "LIGHT_BLUE"
               else groupVal BLUES_TEALS "MEDIUM_BLUE"),
   ("string", if isDark then groupVal GREENS "LIGHT_GREEN"
              else groupVal GREENS "MEDIUM_GREEN"),
   ("comment", if isDark then groupVal GRAYSCALE "MEDIUM_GRAY"
               else groupVal GRAYSCALE "MEDIUM_DARK_GRAY"),
   ("variable", if isDark then groupVal BLUES_TEALS "LIGHTEST_TEAL"
                else groupVal BLUES_TEALS "DARK_BLUE"),
   ("function", if isDark then groupVal WARM_TONES "LIGHTEST_WARM"
                else groupVal WARM_TONES "MEDIUM_WARM"),
   ("class", if isDark then groupVal PURPLES_MAGENTAS "LIGHTEST_PURPLE"
             else groupVal PURPLES_MAGENTAS "MEDIUM_PURPLE"),
   ("operator", if isDark then groupVal GRAYSCALE "LIGHT_GRAY"
                else groupVal GRAYSCALE "DARK_GRAY"),
   ("number", if isDark then groupVal DEEP_PURPLES "LIGHT_DEEP"
              else groupVal DEEP_PURPLES "MEDIUM_DEEP"),
   ("boolean", if isDark then groupVal DEEP_PURPLES "LIGHTEST_DEEP"
               else groupVal DEEP_PURPLES "BRIGHT_DEEP"),
   ("type", if isDark then groupVal BROWNS_ORANGES "LIGHTEST_BROWN"
            else groupVal BROWNS_ORANGES "MEDIUM_BROWN"),
   ("constant", if isDark then groupVal WARM_TONES "LIGHT_WARM"
                else groupVal WARM_TONES "BRIGHT_WARM")]

/-- Function `getWorkbenchColors(isDark)`, as the association list of its
entries in source order. -/
def getWorkbenchColors (isDark : Bool) : List (String × String) :=
  let theme := getThemeColors isDark
  [("editor.background", theme.backgroundPrimary),
   ("editor.foreground", theme.textPrimary),
   ("editor.selectionBackground",
      if isDark then groupVal BLUES_TEALS "DARK_BLUE"
      else groupVal BLUES_TEALS "LIGHTEST_TEAL"),
   ("editor.lineHighlightBackground", theme.backgroundSecondary),
   ("editor.findMatchBackground", theme.accentsWarning),
   ("editor.findMatchHighlightBackground",
      if isDark then groupVal WARM_TONES "DARK_WARM"
      else groupVal WARM_TONES "LIGHTEST_WARM"),
   ("sideBar.background", theme.backgroundSecondary),
   ("sideBar.foreground", theme.textSecondary),
   ("sideBar.border", theme.backgroundTertiary),
   ("activityBar.background", theme.backgroundTertiary),
   ("activityBar.foreground", theme.textPrimary),
   ("activityBar.activeBorder", theme.accentsPrimary),
   ("statusBar.background", theme.backgroundTertiary),
   ("statusBar.foreground", theme.textPrimary),
   ("statusBar.noFolderBackground", theme.backgroundSecondary),
   ("tab.activeBackground", theme.backgroundPrimary),
   ("tab.inactiveBackground", theme.backgroundSecondary),
   ("tab.activeForeground", theme.textPrimary),
   ("tab.inactiveForeground", theme.textMuted),
   ("tab.border", theme.backgroundTertiary),
   ("panel.background", theme.backgroundSecondary),
   ("panel.border", theme.backgroundTertiary),
   ("panelTitle.activeForeground", theme.textPrimary),
   ("panelTitle.inactiveForeground", theme.textMuted),
   ("terminal.background", theme.backgroundPrimary),
   ("terminal.foreground", theme.textPrimary),
   ("terminal.ansiBlack", groupVal GRAYSCALE "BLACK"),
   ("terminal.ansiRed", theme.accentsError),
   ("terminal.ansiGreen", theme.accentsSuccess),
   ("terminal.ansiYellow", theme.accentsWarning),
   ("terminal.ansiBlue", theme.accentsInfo),
   ("terminal.ansiMagenta",
      if isDark then groupVal DEEP_PURPLES "LIGHT_DEEP"
      else groupVal DEEP_PURPLES "MEDIUM_DEEP"),
   ("terminal.ansiCyan", theme.accentsPrimary),
   ("terminal.ansiWhite", groupVal GRAYSCALE "WHITE")]

/-! ## Theme documents and the validation entry points

A parsed theme JSON document, with exactly the fields the two entry
points touch; a missing field is `none`.  Reading and parsing the file
is modelled by an `Except String Theme` argument (`Except.error` is a
thrown exception reaching the entry point's `catch`). -/

/-- Field `rule.settings` of a `tokenColors` entry. -/
structure TokenSettings where
  foreground : Option String

/-- One entry of `tokenColors`. -/
structure TokenRule where
  name : Option String
  settings : Option TokenSettings

/-- A theme document. -/
structure Theme where
  colors : Option (List (String × String))
  tokenColors : Option (List TokenRule)
  semanticHighlighting : Option Bool
  semanticTokenColors : Option (List (String × String))

/-- The rule-level step of `analyzeContrast`: for a rule with
`settings.foreground`, compute the contrast ratio against the background
luminance and keep the color when `contrastRatio < 3`.  A `NaN` luminance
(`none`) makes the comparison false, so nothing is kept. -/
noncomputable def lowContrastOf (bgLuminance : Option ℝ) (rule : TokenRule) :
    List String :=
  match rule.settings with
  | none => []
  | some st =>
    match st.foreground with
    | none => []
    | some color =>
      match bgLuminance, calculateLuminance color with
      | some l1, some l2 =>
        if (max l1 l2 + 0.05) / (min l1 l2 + 0.05) < 3 then [color] else []
      | _, _ => []

/-- The `try` block of `analyzeContrast`: propagates the read/parse
exception, throws a `TypeError` where the JavaScript would (missing
`colors` object, missing `editor.background` value handed to
`calculateLuminance`, missing `tokenColors` array), and otherwise
collects the low-contrast foreground colors. -/
noncomputable def analyzeContrastBody (readTheme : Except String Theme) :
    Except String (List String) := do
  let theme ← readTheme
  let some colors := theme.colors
    | Except.error "TypeError: Cannot read properties of undefined"
  let some backgroundColor :=
      (colors.find? (fun p => p.1 == "editor.background")).map Prod.snd
    | Except.error "TypeError: Cannot read properties of undefined"
  let bgLuminance := calculateLuminance backgroundColor
  let some tokenColors := theme.tokenColors
    | Except.error "TypeError: Cannot read properties of undefined"
  pure (tokenColors.flatMap (lowContrastOf bgLuminance))

/-- Function `analyzeContrast()` of `src/test-colors.js`: the `try` body's result,
with any caught error turned into the empty array. -/
noncomputable def analyzeContrast (readTheme : Except String Theme) :
    List String :=
  match analyzeContrastBody readTheme with
  | Except.ok v => v
  | Except.error _ => []

/-- The `try` block of `validateLightThemeStructure`: propagates the
read/parse exception and returns `false` at each structural check that
the source exits early on (the remaining checks only print). -/
def validateLightThemeStructureBody (readTheme : Except String Theme) :
    Except String Bool := do
  let theme ← readTheme
  if theme.semanticHighlighting ≠ some true then return false
  let some _ := theme.semanticTokenColors | return false
  let some _ := theme.tokenColors | return false
  let some _ := theme.colors | return false
  return true

/-- Function `validateLightThemeStructure()` of `test-light-validation.js`: the
`try` body's result, with any caught error turned into `false`. -/
def validateLightThemeStructure (readTheme : Except String Theme) : Bool :=
  match validateLightThemeStructureBody readTheme with
  | Except.ok b => b
  | Except.error _ => false

/-! ## `testPathSeparators` (cross-platform compatibility suite) -/

/-- One entry of `contributes.themes` in `package.json`. -/
structure ThemeEntry where
  path : Option String

/-- The `package.json` fields `testPathSeparators` reads:
`contributes.themes` (absent guards are falsy). -/
structure PackageJson where
  themes : Option (List ThemeEntry)

/-- The environment of the cross-platform test: the file system
(`fs.existsSync`), path resolution relative to the script directory
(`path.resolve(__dirname, -)` and `path.join(__dirname, -)`), the result
of reading and parsing `package.json` (`none` when the file does not
exist, `Except.error` when `JSON.parse` throws) and the constructor's
`themeFiles` list. -/
structure PathEnv where
  fsExists : String → Bool
  resolve : String → String
  join : String → String
  packageJson : Option (Except String PackageJson)
  themeFiles : List String

/-- Model of `haystack.includes(needle)` on strings, as character sequences:
some suffix of the haystack starts with the needle. -/
def includesSeq (pat : List Char) : List Char → Bool
  | [] => pat.isEmpty
  | c :: tl => pat.isPrefixOf (c :: tl) || includesSeq pat tl

/-- The issues one `contributes.themes` entry contributes: a
Windows-style separator issue when the path contains the two-character
sequence `\\` (the JavaScript literal `'\\\\'`), and a not-found issue
when the resolved path does not exist. -/
def themeEntryIssues (env : PathEnv) (t : ThemeEntry) : List String :=
  match t.path with
  | none => []
  | some p =>
    (if includesSeq ['\\', '\\'] p.data then
       ["Windows-style path separators found: " ++ p]
     else []) ++
    (if env.fsExists (env.resolve p) then []
     else ["Theme file not found at resolved path: " ++ env.resolve p])

/-- The issues of the `packageData.contributes.themes` loop (the
`contributes && contributes.themes` guard skips it when the key is
absent). -/
def pkgThemeIssues (env : PathEnv) (pkg : PackageJson) : List String :=
  match pkg.themes with
  | none => []
  | some ts => ts.flatMap (themeEntryIssues env)

/-- The issues of the `themeFiles` accessibility loop. -/
def fileAccessIssues (env : PathEnv) : List String :=
  env.themeFiles.flatMap fun f =>
    if env.fsExists (env.join f) then []
    else ["Theme file not accessible: " ++ f]

/-- The `try` block of `testPathSeparators`: the `package.json` part
(skipped when the file does not exist, throwing when `JSON.parse`
throws — before any issue is pushed) followed by the `themeFiles`
accessibility loop. -/
def testPathSeparatorsBody (env : PathEnv) : Except String (List String) :=
  match env.packageJson with
  | none => Except.ok (fileAccessIssues env)
  | some (Except.error e) => Except.error e
  | some (Except.ok pkg) =>
    Except.ok (pkgThemeIssues env pkg ++ fileAccessIssues env)

/-- Function `testPathSeparators()` of the cross-platform compatibility suite,
returning `(passed, issues)`; in the source `passed` is set to `false`
exactly when an issue is pushed, and the `catch` pushes its own issue
and sets `passed = false`. -/
def testPathSeparators (env : PathEnv) : Bool × List String :=
  match testPathSeparatorsBody env with
  | Except.ok issues => (issues.isEmpty, issues)
  | Except.error e => (false, ["Path separator test failed: " ++ e])

/-- A sample environment for the cross-platform test: `package.json`
absent, the two expected theme files inaccessible. -/
def sampleFailEnv : PathEnv where
  fsExists := fun _ => false
  resolve := id
  join := id
  packageJson := none
  themeFiles := ["themes/apollo-dark-color-theme.json",
                 "themes/apollo-light-color-theme.json"]

/-- A sample environment in which every file exists and `package.json`
lists one theme whose path uses a single Windows-style backslash
separator (as `JSON.parse` of a Windows path produces). -/
def sampleBackslashEnv : PathEnv where
  fsExists := fun _ => true
  resolve := id
  join := id
  packageJson :=
    some (Except.ok ⟨some [⟨some "themes\\apollo-dark-color-theme.json"⟩]⟩)
  themeFiles := ["themes/apollo-dark-color-theme.json",
                 "themes/apollo-light-color-theme.json"]

end Apollo

namespace Apollo

/-! ## Helper lemmas -/

theorem hexDigitVal_of_isHexDigit (c : Char) (h : isHexDigit c = true) :
    ∃ d, hexDigitVal c = some d ∧ d ≤ 15 := by
  unfold isHexDigit at h
  simp only [Bool.or_eq_true, Bool.and_eq_true, decide_eq_true_eq] at h
  unfold hexDigitVal
  split_ifs with h1 h2 h3
  · simp only [Bool.and_eq_true, decide_eq_true_eq] at h1
    exact ⟨c.toNat - 48, rfl, by omega⟩
  · simp only [Bool.and_eq_true, decide_eq_true_eq] at h2
    exact ⟨c.toNat - 97 + 10, rfl, by omega⟩
  · simp only [Bool.and_eq_true, decide_eq_true_eq] at h3
    exact ⟨c.toNat - 65 + 10, rfl, by omega⟩
  · exfalso
    simp only [Bool.and_eq_true, decide_eq_true_eq, not_and, not_le] at h1 h2 h3
    rcases h with (h | h) | h <;> omega

theorem hexDigitVal_le_15 (c : Char) (d : Nat) (h : hexDigitVal c = some d) :
    d ≤ 15 := by
  unfold hexDigitVal at h
  split_ifs at h with h1 h2 h3
  · simp only [Bool.and_eq_true, decide_eq_true_eq] at h1
    simp only [Option.some.injEq] at h
    omega
  · simp only [Bool.and_eq_true, decide_eq_true_eq] at h2
    simp only [Option.some.injEq] at h
    omega
  · simp only [Bool.and_eq_true, decide_eq_true_eq] at h3
    simp only [Option.some.injEq] at h
    omega

theorem parseHexPair_le_255 (s : String) (i v : Nat)
    (h : parseHexPair s i = some v) : v ≤ 255 := by
  unfold parseHexPair at h
  split at h
  · split at h
    · rename_i d1 d2 hd1 hd2
      simp only [Option.some.injEq] at h
      have b1 := hexDigitVal_le_15 _ _ hd1
      have b2 := hexDigitVal_le_15 _ _ hd2
      omega
    · rename_i d1 hd1 hd2
      simp only [Option.some.injEq] at h
      have b1 := hexDigitVal_le_15 _ _ hd1
      omega
    · exact absurd h (by simp)
  · exact le_trans (hexDigitVal_le_15 _ _ h) (by omega)
  · exact absurd h (by simp)

theorem linearize_nonneg (c : ℝ) (hc : 0 ≤ c) : 0 ≤ linearize c := by
  unfold linearize
  split_ifs with h
  · positivity
  · exact Real.rpow_nonneg (div_nonneg (by linarith) (by norm_num)) _

theorem linearize_le_one (c : ℝ) (_hc0 : 0 ≤ c) (hc1 : c ≤ 1) :
    linearize c ≤ 1 := by
  unfold linearize
  split_ifs with h
  · rw [div_le_one (by norm_num)]
    linarith
  · have hb0 : (0 : ℝ) ≤ (c + 0.055) / 1.055 :=
      div_nonneg (by linarith) (by norm_num)
    have hb1 : (c + 0.055) / 1.055 ≤ 1 := by
      rw [div_le_one (by norm_num)]
      linarith
    exact Real.rpow_le_one hb0 hb1 (by norm_num)

theorem luminance8_bounds (r g b : Nat) (hr : r ≤ 255) (hg : g ≤ 255)
    (hb : b ≤ 255) : 0 ≤ luminance8 r g b ∧ luminance8 r g b ≤ 1 := by
  have key : ∀ n : Nat, n ≤ 255 →
      0 ≤ linearize ((n : ℝ) / 255) ∧ linearize ((n : ℝ) / 255) ≤ 1 := by
    intro n hn
    have h0 : (0 : ℝ) ≤ (n : ℝ) / 255 := by positivity
    have h1 : (n : ℝ) / 255 ≤ 1 := by
      rw [div_le_one (by norm_num)]
      exact_mod_cast hn
    exact ⟨linearize_nonneg _ h0, linearize_le_one _ h0 h1⟩
  obtain ⟨r0, r1⟩ := key r hr
  obtain ⟨g0, g1⟩ := key g hg
  obtain ⟨b0, b1⟩ := key b hb
  unfold luminance8
  constructor <;> nlinarith

theorem calculateLuminance_bounds (s : String) (l : ℝ)
    (h : calculateLuminance s = some l) : 0 ≤ l ∧ l ≤ 1 := by
  unfold calculateLuminance at h
  rcases hp1 : parseHexPair s 1 with _ | r <;> rw [hp1] at h
  · exact absurd h (by simp)
  rcases hp2 : parseHexPair s 3 with _ | g <;> rw [hp2] at h
  · exact absurd h (by simp)
  rcases hp3 : parseHexPair s 5 with _ | b <;> rw [hp3] at h
  · exact absurd h (by simp)
  simp only [Option.some.injEq] at h
  rw [← h]
  exact luminance8_bounds r g b (parseHexPair_le_255 _ _ _ hp1)
    (parseHexPair_le_255 _ _ _ hp2) (parseHexPair_le_255 _ _ _ hp3)

theorem themeEntryIssues_ne_nil (env : PathEnv) (t : ThemeEntry) :
    themeEntryIssues env t ≠ [] ↔
      ∃ p, t.path = some p ∧
        (includesSeq ['\\', '\\'] p.data = true ∨
         env.fsExists (env.resolve p) = false) := by
  unfold themeEntryIssues
  rcases t with ⟨_ | p⟩
  · simp
  · simp only [Option.some.injEq]
    split_ifs with hws hex1 hex2
    · simp [hws]
    · simp [hws]
    · have hws' := Bool.not_eq_true _ |>.mp hws
      simp [hws', hex2]
    · have hex' := Bool.not_eq_true _ |>.mp hex2
      simp [hex']

theorem fileAccessIssues_ne_nil (env : PathEnv) :
    fileAccessIssues env ≠ [] ↔
      ∃ f ∈ env.themeFiles, env.fsExists (env.join f) = false := by
  unfold fileAccessIssues
  rw [Ne, List.flatMap_eq_nil_iff]
  push_neg
  refine exists_congr fun f => and_congr_right fun _ => ?_
  split_ifs with h
  · simp [h]
  · have h' := Bool.not_eq_true _ |>.mp h
    simp [h']

theorem pkgThemeIssues_ne_nil (env : PathEnv) (pkg : PackageJson) :
    pkgThemeIssues env pkg ≠ [] ↔
      ∃ ts, pkg.themes = some ts ∧ ∃ t ∈ ts, ∃ p, t.path = some p ∧
        (includesSeq ['\\', '\\'] p.data = true ∨
         env.fsExists (env.resolve p) = false) := by
  unfold pkgThemeIssues
  rcases hth : pkg.themes with _ | ts
  · simp
  · show ts.flatMap (themeEntryIssues env) ≠ [] ↔ _
    rw [Ne, List.flatMap_eq_nil_iff]
    push_neg
    simp only [Option.some.injEq]
    constructor
    · rintro ⟨t, ht, hne⟩
      exact ⟨ts, rfl, t, ht, (themeEntryIssues_ne_nil env t).mp hne⟩
    · rintro ⟨ts', hts', t, ht, hp⟩
      cases hts'
      exact ⟨t, ht, (themeEntryIssues_ne_nil env t).mpr hp⟩

/-! ## Theorems -/

/-- C3: `getContrastLevel` classifies a ratio `r` against the WCAG
thresholds exactly as the spec states: `"AAA"` iff `r ≥ 7`, `"AA"` iff
`4.5 ≤ r < 7`, `"AA Large"` iff `3 ≤ r < 4.5`, `"Fail"` iff `r < 3`. -/
theorem getContrastLevel_classification (r : ℝ) :
    (getContrastLevel r = "AAA" ↔ 7 ≤ r) ∧
    (getContrastLevel r = "AA" ↔ 4.5 ≤ r ∧ r < 7) ∧
    (getContrastLevel r = "AA Large" ↔ 3 ≤ r ∧ r < 4.5) ∧
    (getContrastLevel r = "Fail" ↔ r < 3) := by
  unfold getContrastLevel
  split_ifs with h1 h2 h3
  · exact ⟨iff_of_true rfl h1,
      iff_of_false (by decide) (fun h => by linarith [h.2]),
      iff_of_false (by decide) (fun h => by linarith [h.2]),
      iff_of_false (by decide) (fun h => by linarith)⟩
  · exact ⟨iff_of_false (by decide) (fun h => h1 h),
      iff_of_true rfl ⟨h2, not_le.mp h1⟩,
      iff_of_false (by decide) (fun h => by linarith [h.2]),
      iff_of_false (by decide) (fun h => by linarith)⟩
  · exact ⟨iff_of_false (by decide) (fun h => h1 h),
      iff_of_false (by decide) (fun h => h2 h.1),
      iff_of_true rfl ⟨h3, not_le.mp h2⟩,
      iff_of_false (by decide) (fun h => by linarith)⟩
  · exact ⟨iff_of_false (by decide) (fun h => h1 h),
      iff_of_false (by decide) (fun h => h2 h.1),
      iff_of_false (by decide) (fun h => h3 h.1),
      iff_of_true rfl (not_le.mp h3)⟩

/-- C7: the contrast ratio is symmetric in its two color arguments. -/
theorem calculateContrastRatio_comm (color1 color2 : String) :
    calculateContrastRatio color1 color2 = calculateContrastRatio color2 color1 := by
  unfold calculateContrastRatio
  cases calculateLuminance color1 <;> cases calculateLuminance color2 <;>
    simp [max_comm, min_comm]

/-- C2: whenever the two luminances are (non-`NaN`) values `l1`, `l2`,
`calculateContrastRatio` returns `(max(l1,l2) + 0.05) / (min(l1,l2) + 0.05)`. -/
theorem calculateContrastRatio_formula (color1 color2 : String) (l1 l2 : ℝ)
    (h1 : calculateLuminance color1 = some l1)
    (h2 : calculateLuminance color2 = some l2) :
    calculateContrastRatio color1 color2 =
      some ((max l1 l2 + 0.05) / (min l1 l2 + 0.05)) := by
  unfold calculateContrastRatio
  rw [h1, h2]

/-- Witness for C2 at the concrete pair `("#000000", "#ffffff")`. -/
theorem calculateContrastRatio_formula_witness :
    calculateLuminance "#000000" = some (luminance8 0 0 0) ∧
    calculateLuminance "#ffffff" = some (luminance8 255 255 255) ∧
    calculateContrastRatio "#000000" "#ffffff" =
      some ((max (luminance8 0 0 0) (luminance8 255 255 255) + 0.05) /
        (min (luminance8 0 0 0) (luminance8 255 255 255) + 0.05)) :=
  ⟨rfl, rfl, calculateContrastRatio_formula _ _ _ _ rfl rfl⟩

/-- C5: a failure while reading or parsing the theme file is caught:
`analyzeContrast` returns the empty array and
`validateLightThemeStructure` returns `false`, whatever the error was. -/
theorem validation_entry_points_catch (e : String) :
    analyzeContrast (Except.error e) = [] ∧
    validateLightThemeStructure (Except.error e) = false :=
  ⟨rfl, rfl⟩

/-- C1: on every valid `#RRGGBB` color, `calculateLuminance` returns
exactly the W3C relative luminance of the three 8-bit channels denoted
by the hex digit pairs, and those channels are 8-bit values. -/
theorem calculateLuminance_matches_spec (s : String)
    (h : isValidHexColor s = true) :
    calculateLuminance s =
      some (spec_relativeLuminance (spec_channel s 1) (spec_channel s 3)
        (spec_channel s 5)) ∧
    spec_channel s 1 ≤ 255 ∧ spec_channel s 3 ≤ 255 ∧
      spec_channel s 5 ≤ 255 := by
  unfold isValidHexColor at h
  split at h
  · rename_i rest heq
    obtain ⟨hlen, hall⟩ := (Bool.and_eq_true _ _).mp h
    have hlen6 : rest.length = 6 := eq_of_beq hlen
    rcases rest with _ | ⟨c1, rest⟩
    · simp at hlen6
    rcases rest with _ | ⟨c2, rest⟩
    · simp at hlen6
    rcases rest with _ | ⟨c3, rest⟩
    · simp at hlen6
    rcases rest with _ | ⟨c4, rest⟩
    · simp at hlen6
    rcases rest with _ | ⟨c5, rest⟩
    · simp at hlen6
    rcases rest with _ | ⟨c6, rest⟩
    · simp at hlen6
    rcases rest with _ | ⟨c7, rest⟩
    case cons => simp at hlen6
    simp only [List.all_cons, List.all_nil, Bool.and_eq_true, Bool.and_true] at hall
    obtain ⟨hh1, hh2, hh3, hh4, hh5, hh6⟩ := hall
    obtain ⟨d1, hd1, hb1⟩ := hexDigitVal_of_isHexDigit _ hh1
    obtain ⟨d2, hd2, hb2⟩ := hexDigitVal_of_isHexDigit _ hh2
    obtain ⟨d3, hd3, hb3⟩ := hexDigitVal_of_isHexDigit _ hh3
    obtain ⟨d4, hd4, hb4⟩ := hexDigitVal_of_isHexDigit _ hh4
    obtain ⟨d5, hd5, hb5⟩ := hexDigitVal_of_isHexDigit _ hh5
    obtain ⟨d6, hd6, hb6⟩ := hexDigitVal_of_isHexDigit _ hh6
    have ch1 : spec_channel s 1 = 16 * d1 + d2 := by
      unfold spec_channel
      rw [heq]
      simp [List.getD, hd1, hd2]
    have ch2 : spec_channel s 3 = 16 * d3 + d4 := by
      unfold spec_channel
      rw [heq]
      simp [List.getD, hd3, hd4]
    have ch3 : spec_channel s 5 = 16 * d5 + d6 := by
      unfold spec_channel
      rw [heq]
      simp [List.getD, hd5, hd6]
    have p1 : parseHexPair s 1 = some (16 * d1 + d2) := by
      unfold parseHexPair
      rw [heq]
      simp [hd1, hd2]
    have p2 : parseHexPair s 3 = some (16 * d3 + d4) := by
      unfold parseHexPair
      rw [heq]
      simp [hd3, hd4]
    have p3 : parseHexPair s 5 = some (16 * d5 + d6) := by
      unfold parseHexPair
      rw [heq]
      simp [hd5, hd6]
    refine ⟨?_, ?_, ?_, ?_⟩
    · unfold calculateLuminance
      rw [p1, p2, p3, ch1, ch2, ch3]
      rfl
    · rw [ch1]; omega
    · rw [ch2]; omega
    · rw [ch3]; omega
  · exact absurd h (by simp)

/-- Witness for C1 at the Apollo color `"#172038"`. -/
theorem calculateLuminance_matches_spec_witness :
    isValidHexColor "#172038" = true ∧
    (calculateLuminance "#172038" =
      some (spec_relativeLuminance (spec_channel "#172038" 1)
        (spec_channel "#172038" 3) (spec_channel "#172038" 5)) ∧
     spec_channel "#172038" 1 ≤ 255 ∧ spec_channel "#172038" 3 ≤ 255 ∧
       spec_channel "#172038" 5 ≤ 255) :=
  ⟨by decide, calculateLuminance_matches_spec "#172038" (by decide)⟩

/-- C8: for valid colors, both computed luminances lie in `[0,1]`, the
divisor of the contrast ratio is positive, and the ratio lies in
`[1,21]`. -/
theorem contrast_ratio_bounds (color1 color2 : String) (l1 l2 r : ℝ)
    (_h1 : isValidHexColor color1 = true) (_h2 : isValidHexColor color2 = true)
    (hl1 : calculateLuminance color1 = some l1)
    (hl2 : calculateLuminance color2 = some l2)
    (hr : calculateContrastRatio color1 color2 = some r) :
    (0 ≤ l1 ∧ l1 ≤ 1) ∧ (0 ≤ l2 ∧ l2 ≤ 1) ∧
    0 < min l1 l2 + 0.05 ∧ 1 ≤ r ∧ r ≤ 21 := by
  obtain ⟨h10, h11⟩ := calculateLuminance_bounds _ _ hl1
  obtain ⟨h20, h21⟩ := calculateLuminance_bounds _ _ hl2
  have hmin : (0 : ℝ) ≤ min l1 l2 := le_min h10 h20
  have hmax : max l1 l2 ≤ 1 := max_le h11 h21
  have hden : (0 : ℝ) < min l1 l2 + 0.05 := by linarith
  unfold calculateContrastRatio at hr
  rw [hl1, hl2] at hr
  simp only [Option.some.injEq] at hr
  subst hr
  refine ⟨⟨h10, h11⟩, ⟨h20, h21⟩, hden, ?_, ?_⟩
  · rw [le_div_iff₀ hden]
    linarith [min_le_max (a := l1) (b := l2)]
  · rw [div_le_iff₀ hden]
    linarith

/-- Witness for C8 at the concrete pair `("#000000", "#ffffff")`. -/
theorem contrast_ratio_bounds_witness :
    isValidHexColor "#000000" = true ∧ isValidHexColor "#ffffff" = true ∧
    ((0 ≤ luminance8 0 0 0 ∧ luminance8 0 0 0 ≤ 1) ∧
     (0 ≤ luminance8 255 255 255 ∧ luminance8 255 255 255 ≤ 1) ∧
     0 < min (luminance8 0 0 0) (luminance8 255 255 255) + 0.05 ∧
     1 ≤ (max (luminance8 0 0 0) (luminance8 255 255 255) + 0.05) /
         (min (luminance8 0 0 0) (luminance8 255 255 255) + 0.05) ∧
     (max (luminance8 0 0 0) (luminance8 255 255 255) + 0.05) /
         (min (luminance8 0 0 0) (luminance8 255 255 255) + 0.05) ≤ 21) :=
  ⟨by decide, by decide,
    contrast_ratio_bounds "#000000" "#ffffff" _ _ _ (by decide) (by decide)
      rfl rfl rfl⟩

/-- C9: the merged palette holds 46 colors (the module's documentation
says 48), and `isApolloColor` is exactly membership in
`getAllApolloColors`. -/
theorem getAllApolloColors_card_46 :
    getAllApolloColors.length = 46 ∧ getAllApolloColors.length ≠ 48 ∧
    ∀ c : String, isApolloColor c = true ↔ c ∈ getAllApolloColors := by
  refine ⟨by decide, by decide, fun c => ?_⟩
  simp [isApolloColor, List.contains, List.elem_iff]

/-- C10: every color produced by `getThemeColors`, `getSyntaxColors`
and `getWorkbenchColors`, for both values of `isDark`, is an Apollo
palette color. -/
theorem theme_helpers_stay_in_palette :
    ∀ isDark : Bool,
      (∀ c ∈ (getThemeColors isDark).allColors, isApolloColor c = true) ∧
      (∀ c ∈ (getSyntaxColors isDark).map Prod.snd, isApolloColor c = true) ∧
      (∀ c ∈ (getWorkbenchColors isDark).map Prod.snd, isApolloColor c = true) := by
  decide

/-- C4: `isValidHexColor` accepts exactly the strings that are `'#'`
followed by six hexadecimal digits; in particular the 3-digit and
8-digit (alpha) forms are rejected. -/
theorem isValidHexColor_characterization :
    (∀ s : String, isValidHexColor s = true ↔
      ∃ t : List Char, s.data = '#' :: t ∧ t.length = 6 ∧
        ∀ c ∈ t, isHexDigit c = true) ∧
    isValidHexColor "#abc" = false ∧ isValidHexColor "#aabbccdd" = false := by
  refine ⟨fun s => ?_, by decide, by decide⟩
  unfold isValidHexColor
  constructor
  · intro h
    split at h
    · next rest heq =>
      refine ⟨rest, heq, ?_, ?_⟩
      · have := (Bool.and_eq_true _ _).mp h
        exact eq_of_beq this.1
      · have := (Bool.and_eq_true _ _).mp h
        exact fun c hc => List.all_eq_true.mp this.2 c hc
    · exact absurd h (by simp)
  · rintro ⟨t, heq, hlen, hall⟩
    rw [heq]
    simp [hlen, List.all_eq_true]
    exact hall

/-- C6 (amended): provided reading and parsing `package.json` does not
throw, `testPathSeparators` reports `passed = false` exactly when some
theme path listed in `package.json` contains a doubled backslash (the
source checks `includes` of the two-character sequence `\\`) or does
not resolve to an existing file, or one of the expected theme files is
not accessible; and `passed` is `true` exactly when no issue was
recorded. -/
theorem testPathSeparators_passed_iff (env : PathEnv)
    (hok : ∀ e, env.packageJson ≠ some (Except.error e)) :
    ((testPathSeparators env).1 = false ↔
      ((∃ pkg ts, env.packageJson = some (Except.ok pkg) ∧
          pkg.themes = some ts ∧ ∃ t ∈ ts, ∃ p, t.path = some p ∧
            (includesSeq ['\\', '\\'] p.data = true ∨
             env.fsExists (env.resolve p) = false)) ∨
        ∃ f ∈ env.themeFiles, env.fsExists (env.join f) = false)) ∧
    ((testPathSeparators env).1 = true ↔ (testPathSeparators env).2 = []) := by
  constructor
  · rcases hpj : env.packageJson with _ | e | pkg
    · have hbody : testPathSeparatorsBody env =
          Except.ok (fileAccessIssues env) := by
        unfold testPathSeparatorsBody
        rw [hpj]
      unfold testPathSeparators
      rw [hbody]
      show (fileAccessIssues env).isEmpty = false ↔ _
      rw [List.isEmpty_eq_false, fileAccessIssues_ne_nil]
      constructor
      · exact Or.inr
      · rintro (⟨pkg, ts, hpkg, _⟩ | h)
        · exact absurd hpkg (by simp)
        · exact h
    · exact absurd hpj (hok e)
    · have hbody : testPathSeparatorsBody env =
          Except.ok (pkgThemeIssues env pkg ++ fileAccessIssues env) := by
        unfold testPathSeparatorsBody
        rw [hpj]
      unfold testPathSeparators
      rw [hbody]
      show (pkgThemeIssues env pkg ++ fileAccessIssues env).isEmpty = false ↔ _
      rw [List.isEmpty_eq_false]
      constructor
      · intro hne
        have hsplit : pkgThemeIssues env pkg ≠ [] ∨ fileAccessIssues env ≠ [] := by
          by_contra hc
          push_neg at hc
          exact hne (by rw [hc.1, hc.2]; rfl)
        rcases hsplit with h | h
        · obtain ⟨ts, hts, rest⟩ := (pkgThemeIssues_ne_nil env pkg).mp h
          exact Or.inl ⟨pkg, ts, rfl, hts, rest⟩
        · exact Or.inr ((fileAccessIssues_ne_nil env).mp h)
      · rintro (⟨pkg', ts, hpkg', hts, rest⟩ | h)
        · injection hpkg' with h'
          injection h' with h''
          cases h''
          intro hcontra
          rw [List.append_eq_nil] at hcontra
          exact (pkgThemeIssues_ne_nil env pkg).mpr ⟨ts, hts, rest⟩ hcontra.1
        · intro hcontra
          rw [List.append_eq_nil] at hcontra
          exact (fileAccessIssues_ne_nil env).mpr h hcontra.2
  · unfold testPathSeparators
    rcases testPathSeparatorsBody env with e | issues
    · simp
    · show issues.isEmpty = true ↔ issues = []
      exact List.isEmpty_iff

/-- Witness for C6 with `package.json` absent and both expected theme
files inaccessible. -/
theorem testPathSeparators_passed_iff_witness :
    (∀ e, sampleFailEnv.packageJson ≠ some (Except.error e)) ∧
    (((testPathSeparators sampleFailEnv).1 = false ↔
      ((∃ pkg ts, sampleFailEnv.packageJson = some (Except.ok pkg) ∧
          pkg.themes = some ts ∧ ∃ t ∈ ts, ∃ p, t.path = some p ∧
            (includesSeq ['\\', '\\'] p.data = true ∨
             sampleFailEnv.fsExists (sampleFailEnv.resolve p) = false)) ∨
        ∃ f ∈ sampleFailEnv.themeFiles,
          sampleFailEnv.fsExists (sampleFailEnv.join f) = false)) ∧
     ((testPathSeparators sampleFailEnv).1 = true ↔
        (testPathSeparators sampleFailEnv).2 = [])) :=
  ⟨fun _ h => Option.noConfusion h,
   testPathSeparators_passed_iff sampleFailEnv (fun _ h => Option.noConfusion h)⟩

/-- Counterexample to C6 as stated: a `package.json` theme path using a
single Windows-style backslash separator (`themes\apollo-...`) whose
file exists is not flagged — the source only checks for the doubled
sequence `\\` — so `testPathSeparators` still reports `passed = true`. -/
theorem testPathSeparators_backslash_counterexample :
    "themes\\apollo-dark-color-theme.json".data.contains '\\' = true ∧
    (∃ pkg ts, sampleBackslashEnv.packageJson = some (Except.ok pkg) ∧
      pkg.themes = some ts ∧
      ∃ t ∈ ts, t.path = some "themes\\apollo-dark-color-theme.json") ∧
    (testPathSeparators sampleBackslashEnv).1 = true :=
  ⟨by decide,
   ⟨⟨some [⟨some "themes\\apollo-dark-color-theme.json"⟩]⟩,
    [⟨some "themes\\apollo-dark-color-theme.json"⟩], rfl, rfl,
    ⟨some "themes\\apollo-dark-color-theme.json"⟩, by simp, rfl⟩,
   by decide⟩

end Apollo
